import Mathlib

/-!
Verification development for the JSON-RPC request pipeline of
`a2a/server/apps/jsonrpc/jsonrpc_app.py` (class `JSONRPCApplication`).

The pipeline is shallowly embedded: Python values flowing through
`_handle_requests`, `_process_streaming_request`,
`_process_non_streaming_request`, `_create_response` and
`_generate_error_response` are modelled as Lean data, exceptions as an
explicit error type threaded with `Except`, and the transport request
(body read, call-context builder, business handlers) as a `Scenario`
record that each theorem quantifies over.
-/

/-- A JSON value, as produced by Python's `json` module / pydantic
`model_dump(mode='json')`. -/
inductive Json where
  | null : Json
  | bool (b : Bool) : Json
  | num (n : Int) : Json
  | str (s : String) : Json
  | arr (xs : List Json) : Json
  | obj (fields : List (String × Json)) : Json
deriving Repr

namespace Json

/-- Whether a JSON value is `null` (models a Python `None` field value). -/
def isNull : Json → Bool
  | .null => true
  | _ => false

/-- First-match lookup of a key in a JSON object field list
(models `dict` access on a parsed body). -/
def lookupField : List (String × Json) → String → Option Json
  | [], _ => none
  | (k, v) :: rest, key => if k = key then some v else lookupField rest key

end Json

/-- A JSON-RPC request id: the source types it `str | int | None`, with
`None` modelled as `Option.none` around this type. -/
inductive RequestId where
  | str (s : String) : RequestId
  | num (n : Int) : RequestId
deriving Repr, DecidableEq

/-- The nine request variants of the closed `A2ARequest` union routed by
`_handle_requests` / `_process_non_streaming_request`. -/
inductive A2ARequestVariant where
  | sendMessage
  | sendStreamingMessage
  | cancelTask
  | getTask
  | taskResubscription
  | setTaskPushNotificationConfig
  | getTaskPushNotificationConfig
  | listTaskPushNotificationConfig
  | deleteTaskPushNotificationConfig
deriving Repr, DecidableEq

/-- The `isinstance(request_obj, TaskResubscriptionRequest | SendStreamingMessageRequest)`
test at jsonrpc_app.py:211-214 that selects the streaming path. -/
def streamingClass : A2ARequestVariant → Bool
  | .taskResubscription => true
  | .sendStreamingMessage => true
  | _ => false

/-- Modelled from the spec: the method-discriminator strings of the nine
variants of `a2a.types.A2ARequest` (the `a2a.types` module is not part of
the analysed source file; the spec fixes a closed, tagged union of exactly
nine members discriminated by the method field, and the source docstrings
name the methods message/send, message/stream, tasks/get, tasks/cancel,
tasks/resubscribe and tasks/pushNotificationConfig/*). -/
def methodToVariant (m : String) : Option A2ARequestVariant :=
  if m = "message/send" then some .sendMessage
  else if m = "message/stream" then some .sendStreamingMessage
  else if m = "tasks/cancel" then some .cancelTask
  else if m = "tasks/get" then some .getTask
  else if m = "tasks/resubscribe" then some .taskResubscription
  else if m = "tasks/pushNotificationConfig/set" then some .setTaskPushNotificationConfig
  else if m = "tasks/pushNotificationConfig/get" then some .getTaskPushNotificationConfig
  else if m = "tasks/pushNotificationConfig/list" then some .listTaskPushNotificationConfig
  else if m = "tasks/pushNotificationConfig/delete" then some .deleteTaskPushNotificationConfig
  else none

/-- A validated `A2ARequest`: the decoded envelope `a2a_request.root`
exposing its `id`, its variant tag, and its (opaque to the pipeline)
params payload. -/
structure A2ARequestModel where
  id : Option RequestId
  variant : A2ARequestVariant
  params : Json
deriving Repr

/-- Validation of the `id` field of the envelope: present values must be
string, integer or null. -/
def validateIdField : Option Json → Option (Option RequestId)
  | none => some none
  | some Json.null => some none
  | some (Json.str s) => some (some (.str s))
  | some (Json.num n) => some (some (.num n))
  | some _ => none

/-- Modelled from the spec: `A2ARequest.model_validate(body)` of
`a2a.types` (not part of the analysed source file). Per the spec's
Envelope Decoder contract, a well-formed body either decodes to exactly
one of the nine variants or fails with SchemaValidationFailure — which
includes an unknown or missing discriminator and ill-typed envelope
fields. The error value is the validation detail later placed in the
`data` field of the InvalidRequestError. Per-variant params-shape
validation is not modelled (the pipeline never inspects params). -/
def modelValidate (body : Json) : Except Json A2ARequestModel :=
  match body with
  | Json.obj fields =>
    match Json.lookupField fields "method" with
    | some (Json.str m) =>
      match methodToVariant m with
      | some v =>
        match validateIdField (Json.lookupField fields "id") with
        | some rid =>
          match Json.lookupField fields "jsonrpc" with
          | none =>
            Except.ok ⟨rid, v, (Json.lookupField fields "params").getD Json.null⟩
          | some (Json.str ver) =>
            if ver = "2.0" then
              Except.ok ⟨rid, v, (Json.lookupField fields "params").getD Json.null⟩
            else Except.error (Json.str "Input should be 2.0")
          | some _ => Except.error (Json.str "Input should be 2.0")
        | none => Except.error (Json.str "Input should be a valid string or integer")
      | none => Except.error (Json.str ("Unable to extract tag using discriminator: " ++ m))
    | some _ => Except.error (Json.str "Input should be a valid string")
    | none => Except.error (Json.str "Field required: method")
  | _ => Except.error (Json.str "Input should be a valid dictionary")

/-- A `JSONRPCError`-shaped value: integer code, message, optional
structured data. -/
structure JSONRPCError where
  code : Int
  message : String
  data : Option Json := none
deriving Repr

/-- Modelled from the spec: the `A2AError` root variants the pipeline
constructs, with the canonical JSON-RPC / A2A error codes and the default
messages of `a2a.types` (not part of the analysed source file); the spec
pins ParseError = -32700 and InvalidRequestError = -32600 in its
scenarios, InternalError is the standard -32603 and
UnsupportedOperationError the A2A-specific -32004. The message argument
carries the message the call site supplies (the source overrides the
defaults at every construction site that matters here). -/
inductive A2AErrorKind where
  | jsonParseError (message : String)
  | invalidRequestError (message : String) (data : Option Json)
  | unsupportedOperationError (message : String)
  | internalError (message : String)
deriving Repr

namespace A2AErrorKind

/-- The `error.root` JSON-RPC error carried by an `A2AError`. -/
def toError : A2AErrorKind → JSONRPCError
  | .jsonParseError m => ⟨-32700, m, none⟩
  | .invalidRequestError m d => ⟨-32600, m, d⟩
  | .unsupportedOperationError m => ⟨-32004, m, none⟩
  | .internalError m => ⟨-32603, m, none⟩

/-- The `isinstance(error.root, InternalError)` test of
`_generate_error_response`. -/
def isInternalError : A2AErrorKind → Bool
  | .internalError _ => true
  | _ => false

end A2AErrorKind

/-- The argument type of `_generate_error_response`:
`JSONRPCError | A2AError`. -/
inductive ErrorArg where
  | jsonrpc (e : JSONRPCError)
  | a2a (root : A2AErrorKind)
deriving Repr

/-- pydantic `exclude_none=True` at one model level: fields whose value
is `None` are omitted from the dump. -/
def dumpFields (excludeNone : Bool) (fields : List (String × Json)) : List (String × Json) :=
  if excludeNone then fields.filter (fun f => !f.2.isNull) else fields

/-- Dump of a request id field value (`str | int | None`). -/
def dumpRequestId : Option RequestId → Json
  | none => Json.null
  | some (.str s) => Json.str s
  | some (.num n) => Json.num n

/-- Dump of a `JSONRPCError` model: code, message, optional data. -/
def dumpError (excludeNone : Bool) (e : JSONRPCError) : Json :=
  Json.obj (dumpFields excludeNone
    [("code", Json.num e.code), ("message", Json.str e.message), ("data", e.data.getD Json.null)])

/-- Dump of a `JSONRPCErrorResponse` model: jsonrpc, id, error. -/
def dumpErrorResponse (excludeNone : Bool) (id : Option RequestId) (e : JSONRPCError) :
    List (String × Json) :=
  dumpFields excludeNone
    [("jsonrpc", Json.str "2.0"), ("id", dumpRequestId id), ("error", dumpError excludeNone e)]

/-- Dump of a success `JSONRPCResponse` root model: jsonrpc, id, result. -/
def dumpSuccessResponse (excludeNone : Bool) (id : Option RequestId) (result : Json) :
    List (String × Json) :=
  dumpFields excludeNone
    [("jsonrpc", Json.str "2.0"), ("id", dumpRequestId id), ("result", result)]

/-- One item of a streaming handler's sequence: the `root` of a
`SendStreamingMessageResponse`, either a success payload or a
`JSONRPCErrorResponse`. -/
inductive StreamItem where
  | success (id : Option RequestId) (result : Json)
  | error (id : Option RequestId) (e : JSONRPCError)
deriving Repr

/-- The object a stream frame serializes:
`item.root.model_dump(exclude_none=True)`. -/
def dumpStreamItem (excludeNone : Bool) : StreamItem → List (String × Json)
  | .success id r => dumpSuccessResponse excludeNone id r
  | .error id e => dumpErrorResponse excludeNone id e

/-- Minimal JSON string escaping (backslash and double quote). -/
def escapeJsonString (s : String) : String :=
  s.foldl (fun acc c =>
    if c = '\\' then acc ++ "\\\\"
    else if c = '"' then acc ++ "\\\""
    else acc.push c) ""

mutual

/-- Serialization of a JSON value to its wire text
(models `model_dump_json` output shape). -/
def renderJson : Json → String
  | .null => "null"
  | .bool true => "true"
  | .bool false => "false"
  | .num n => toString n
  | .str s => "\"" ++ escapeJsonString s ++ "\""
  | .arr xs => "[" ++ renderArr xs ++ "]"
  | .obj fs => "\x7b" ++ renderFields fs ++ "\x7d"

/-- Comma-separated rendering of array elements. -/
def renderArr : List Json → String
  | [] => ""
  | [x] => renderJson x
  | x :: y :: rest => renderJson x ++ "," ++ renderArr (y :: rest)

/-- Comma-separated rendering of object fields. -/
def renderFields : List (String × Json) → String
  | [] => ""
  | [(k, v)] => "\"" ++ escapeJsonString k ++ "\":" ++ renderJson v
  | (k, v) :: f :: rest =>
    "\"" ++ escapeJsonString k ++ "\":" ++ renderJson v ++ "," ++ renderFields (f :: rest)

end

/-- Serialization of one stream item's root:
`model_dump_json(exclude_none=True)`. -/
def serializeStreamItem (item : StreamItem) : String :=
  renderJson (Json.obj (dumpStreamItem true item))

/-- The `event_generator` closure of `_create_response`: one frame per
item of the handler's stream, in stream order, each frame carrying the
item's individual serialization. -/
def eventGenerator : List StreamItem → List String
  | [] => []
  | item :: rest => serializeStreamItem item :: eventGenerator rest

/-- The Python exceptions distinguished by the except-ladder of
`_handle_requests` (all subclasses of `Exception`; anything not matching
an earlier clause is `otherException`, caught by `except Exception`). -/
inductive PyExc where
  | methodNotImplementedError
  | jsonDecodeError (msg : String)
  | validationError (detail : Json)
  | httpException (status : Nat)
  | otherException (msg : String)
deriving Repr

/-- A transport-level response: a Starlette `JSONResponse` (body object
and HTTP status) or an `EventSourceResponse` (the rendered frames of its
event generator). -/
inductive TransportResponse where
  | json (body : List (String × Json)) (status : Nat)
  | sse (frames : List String)
deriving Repr

/-- Log severities used by `_generate_error_response`. -/
inductive LogLevel where
  | error
  | warning
deriving Repr, DecidableEq

/-- A response together with the severity `_generate_error_response`
logged at (`none` when the response was not produced by it). -/
structure HandledResponse where
  response : TransportResponse
  logLevel : Option LogLevel
deriving Repr

/-- The outcome shapes `_create_response` dispatches on:
`AsyncGenerator | JSONRPCErrorResponse | JSONRPCResponse` (a success root
model carrying its own id and result payload). -/
inductive HandlerResult where
  | stream (items : List StreamItem)
  | errorResponse (id : Option RequestId) (e : JSONRPCError)
  | success (id : Option RequestId) (result : Json)
deriving Repr

/-- A business-handler invocation either returns an outcome or raises. -/
inductive HandlerBehavior where
  | returns (r : HandlerResult)
  | throws (e : PyExc)
deriving Repr

/-- One inbound request as the pipeline observes it: what
`await request.json()` yields (a body or a raised exception), whether the
call-context builder raises, and the behavior of the business handler for
each validated request (the `JSONRPCHandler` collaborator behind the
routing table). -/
structure Scenario where
  bodyRead : Except PyExc Json
  contextBuild : Except PyExc Unit
  handler : A2ARequestModel → HandlerBehavior

/-- Model of `_generate_error_response`: builds the `JSONRPCErrorResponse`, logs at
ERROR exactly when the argument is a bare `JSONRPCError` or an `A2AError`
rooted in `InternalError` (WARNING otherwise), and returns a
`JSONResponse` of the `exclude_none` dump with status 200. -/
def generateErrorResponse (requestId : Option RequestId) (error : ErrorArg) : HandledResponse :=
  let e := match error with
    | .jsonrpc e => e
    | .a2a k => k.toError
  let logLevel := match error with
    | .jsonrpc _ => LogLevel.error
    | .a2a k => if k.isInternalError then LogLevel.error else LogLevel.warning
  ⟨.json (dumpErrorResponse true requestId e) 200, some logLevel⟩

/-- Model of `_create_response`: an `AsyncGenerator` outcome becomes an
`EventSourceResponse` over `event_generator`; a `JSONRPCErrorResponse`
or a success root model becomes a `JSONResponse` of its `exclude_none`
dump (default status 200). -/
def createResponse : HandlerResult → TransportResponse
  | .stream items => .sse (eventGenerator items)
  | .errorResponse id e => .json (dumpErrorResponse true id e) 200
  | .success id r => .json (dumpSuccessResponse true id r) 200

/-- Model of `_process_streaming_request`: invokes the streaming handler method
for the variant and renders its outcome. -/
def processStreamingRequest (s : Scenario) (req : A2ARequestModel) :
    Except PyExc TransportResponse :=
  match s.handler req with
  | .throws e => Except.error e
  | .returns r => Except.ok (createResponse r)

/-- Model of `_process_non_streaming_request`: the match over the seven unary
request types invokes the routed handler method; the defensive `case _`
(reachable only for the two streaming variants, which `_handle_requests`
never sends here) builds an `UnsupportedOperationError`-bearing
`JSONRPCErrorResponse` with the request id and renders it. -/
def processNonStreamingRequest (s : Scenario) (requestId : Option RequestId)
    (req : A2ARequestModel) : Except PyExc TransportResponse :=
  if streamingClass req.variant then
    Except.ok (createResponse (.errorResponse requestId
      ((A2AErrorKind.unsupportedOperationError "Request type is unknown.").toError)))
  else
    match s.handler req with
    | .throws e => Except.error e
    | .returns r => Except.ok (createResponse r)

/-- The streaming-vs-unary dispatch of `_handle_requests` lines 211-221:
the streaming class goes to `_process_streaming_request`, every other
variant to `_process_non_streaming_request`. -/
def dispatchRequest (s : Scenario) (req : A2ARequestModel) :
    Except PyExc TransportResponse :=
  if streamingClass req.variant then processStreamingRequest s req
  else processNonStreamingRequest s req.id req

/-- The try-block of `_handle_requests`: body read, validation, context
build, then dispatch by the streaming-class test. On failure it carries
the exception together with the value of the `request_id` local at the
raise point — `None` until the line `request_id = a2a_request.root.id`,
which runs only after validation and context building succeed. -/
def tryHandle (s : Scenario) : Except (PyExc × Option RequestId) TransportResponse :=
  match s.bodyRead with
  | .error e => .error (e, none)
  | .ok body =>
    match modelValidate body with
    | .error detail => .error (.validationError detail, none)
    | .ok req =>
      match s.contextBuild with
      | .error e => .error (e, none)
      | .ok _ =>
        match dispatchRequest s req with
        | .error e => .error (e, req.id)
        | .ok r => .ok r

/-- Model of `_handle_requests`: the try-block wrapped in the except-ladder.
`MethodNotImplementedError` becomes an UnsupportedOperationError
response; `json.decoder.JSONDecodeError` a JSONParseError response with
id `None`; `ValidationError` an InvalidRequestError response carrying the
validation detail; `HTTPException` with status 413 an
InvalidRequestError "Payload too large" response, any other
`HTTPException` is re-raised; any other `Exception` an InternalError
response. The result is the response, or the re-raised exception. -/
def handleRequests (s : Scenario) : Except PyExc HandledResponse :=
  match tryHandle s with
  | .ok r => .ok ⟨r, none⟩
  | .error (e, rid) =>
    match e with
    | .methodNotImplementedError =>
      .ok (generateErrorResponse rid
        (.a2a (.unsupportedOperationError "This operation is not supported")))
    | .jsonDecodeError msg =>
      .ok (generateErrorResponse none (.a2a (.jsonParseError msg)))
    | .validationError detail =>
      .ok (generateErrorResponse rid
        (.a2a (.invalidRequestError "Request payload validation error" (some detail))))
    | .httpException status =>
      if status = 413 then
        .ok (generateErrorResponse rid
          (.a2a (.invalidRequestError "Payload too large" none)))
      else .error (.httpException status)
    | .otherException msg =>
      .ok (generateErrorResponse rid (.a2a (.internalError msg)))

namespace TransportResponse

/-- Whether a response is a server-sent-event stream. -/
def isSSE : TransportResponse → Bool
  | .sse _ => true
  | .json _ _ => false

/-- The body object of a `JSONResponse` (none for a stream). -/
def body : TransportResponse → Option (List (String × Json))
  | .json b _ => some b
  | .sse _ => none

/-- The HTTP status of a `JSONResponse` (none for a stream). -/
def status : TransportResponse → Option Nat
  | .json _ st => some st
  | .sse _ => none

/-- The `error.code` of a JSON-RPC error response body, when present. -/
def errorCode : TransportResponse → Option Int
  | .json b _ =>
    match Json.lookupField b "error" with
    | some (Json.obj ef) =>
      match Json.lookupField ef "code" with
      | some (Json.num c) => some c
      | _ => none
    | _ => none
  | .sse _ => none

/-- The `error.message` of a JSON-RPC error response body, when present. -/
def errorMessage : TransportResponse → Option String
  | .json b _ =>
    match Json.lookupField b "error" with
    | some (Json.obj ef) =>
      match Json.lookupField ef "message" with
      | some (Json.str m) => some m
      | _ => none
    | _ => none
  | .sse _ => none

/-- The `id` value present in a `JSONResponse` body, if any. -/
def idValue : TransportResponse → Option Json
  | .json b _ => Json.lookupField b "id"
  | .sse _ => none

end TransportResponse

/-- A handler that answers every request with a fixed success payload
(used to instantiate scenarios whose handler is never reached or whose
outcome shape is irrelevant). -/
def trivialHandler : A2ARequestModel → HandlerBehavior :=
  fun req => .returns (.success req.id (Json.obj [("kind", Json.str "task")]))

/-- A request body for `tasks/get` with id 1. -/
def getTaskBody : Json :=
  Json.obj [("jsonrpc", Json.str "2.0"), ("id", Json.num 1),
    ("method", Json.str "tasks/get"), ("params", Json.obj [("id", Json.str "t1")])]

/-- A request body for `message/stream` with id 2. -/
def streamBody : Json :=
  Json.obj [("jsonrpc", Json.str "2.0"), ("id", Json.num 2),
    ("method", Json.str "message/stream"), ("params", Json.obj [])]

/-- A well-formed body whose method discriminator is not one of the nine
known variants, with a recoverable top-level id. -/
def unknownMethodBody : Json :=
  Json.obj [("jsonrpc", Json.str "2.0"), ("id", Json.num 5),
    ("method", Json.str "foo/bar"), ("params", Json.obj [])]

/-- Scenario: the body fails JSON parsing (truncated input). -/
def malformedBodyScenario : Scenario :=
  ⟨.error (.jsonDecodeError "Expecting value: line 1 column 2 (char 1)"), .ok (), trivialHandler⟩

/-- Scenario: body read raises the 413 body-too-large transport signal. -/
def oversizedBodyScenario : Scenario :=
  ⟨.error (.httpException 413), .ok (), trivialHandler⟩

/-- Scenario: body read raises a non-413 HTTP exception. -/
def forbiddenScenario : Scenario :=
  ⟨.error (.httpException 403), .ok (), trivialHandler⟩

/-- Scenario: well-formed body with an unknown method discriminator. -/
def unknownMethodScenario : Scenario :=
  ⟨.ok unknownMethodBody, .ok (), trivialHandler⟩

/-- Scenario: valid `tasks/get` request whose handler returns a success
response echoing the request id. -/
def unaryScenario : Scenario :=
  ⟨.ok getTaskBody, .ok (), trivialHandler⟩

/-- Scenario: valid `tasks/get` request whose handler returns an explicit
JSON-RPC error response. -/
def unaryErrorScenario : Scenario :=
  ⟨.ok getTaskBody, .ok (),
    fun req => .returns (.errorResponse req.id ⟨-32001, "Task not found", none⟩)⟩

/-- Scenario: valid `message/stream` request whose handler yields two
stream items. -/
def streamScenario : Scenario :=
  ⟨.ok streamBody, .ok (),
    fun req => .returns (.stream
      [.success req.id (Json.obj [("kind", Json.str "message")]),
       .success req.id (Json.obj [("kind", Json.str "task")])])⟩

/-- Scenario: valid `tasks/get` request whose handler raises an arbitrary
exception. -/
def internalFailureScenario : Scenario :=
  ⟨.ok getTaskBody, .ok (), fun _ => .throws (.otherException "boom")⟩

/-! Helper lemmas shared by several claims. -/

theorem mem_dumpFields_true {fs : List (String × Json)} {p : String × Json}
    (h : p ∈ dumpFields true fs) : p.2.isNull = false := by
  simp only [dumpFields, if_true] at h
  simpa using (List.mem_filter.mp h).2

theorem dumpError_not_null (e : JSONRPCError) : (dumpError true e).isNull = false := rfl

theorem lookupField_error_of_dump (rid : Option RequestId) (e : JSONRPCError) :
    Json.lookupField (dumpErrorResponse true rid e) "error" = some (dumpError true e) := by
  rcases rid with _ | rv
  case none =>
    simp [dumpErrorResponse, dumpFields, Json.lookupField, dumpRequestId, Json.isNull,
      dumpError_not_null]
  case some =>
    cases rv <;>
      simp [dumpErrorResponse, dumpFields, Json.lookupField, dumpRequestId, Json.isNull,
        dumpError_not_null]

theorem lookupField_result_of_error_dump (rid : Option RequestId) (e : JSONRPCError) :
    Json.lookupField (dumpErrorResponse true rid e) "result" = none := by
  rcases rid with _ | rv
  case none =>
    simp [dumpErrorResponse, dumpFields, Json.lookupField, dumpRequestId, Json.isNull,
      dumpError_not_null]
  case some =>
    cases rv <;>
      simp [dumpErrorResponse, dumpFields, Json.lookupField, dumpRequestId, Json.isNull,
        dumpError_not_null]

theorem lookupField_error_of_success_dump (rid : Option RequestId) (r : Json) :
    Json.lookupField (dumpSuccessResponse true rid r) "error" = none := by
  rcases rid with _ | rv
  case none =>
    cases r <;>
      simp [dumpSuccessResponse, dumpFields, Json.lookupField, dumpRequestId, Json.isNull]
  case some =>
    cases rv <;> cases r <;>
      simp [dumpSuccessResponse, dumpFields, Json.lookupField, dumpRequestId, Json.isNull]

theorem lookupField_id_of_error_dump_none (e : JSONRPCError) :
    Json.lookupField (dumpErrorResponse true none e) "id" = none := by
  simp [dumpErrorResponse, dumpFields, Json.lookupField, dumpRequestId, Json.isNull,
    dumpError_not_null]

theorem errorCode_of_error_dump (rid : Option RequestId) (e : JSONRPCError) :
    TransportResponse.errorCode (.json (dumpErrorResponse true rid e) 200) = some e.code := by
  rcases e with ⟨code, msg, data⟩
  rcases rid with _ | rv
  case none =>
    cases data <;>
      simp [TransportResponse.errorCode, dumpErrorResponse, dumpError, dumpFields,
        Json.lookupField, dumpRequestId, Json.isNull, List.filter]
  case some =>
    cases rv <;> cases data <;>
      simp [TransportResponse.errorCode, dumpErrorResponse, dumpError, dumpFields,
        Json.lookupField, dumpRequestId, Json.isNull, List.filter]

theorem errorMessage_of_error_dump (rid : Option RequestId) (e : JSONRPCError) :
    TransportResponse.errorMessage (.json (dumpErrorResponse true rid e) 200) =
      some e.message := by
  rcases e with ⟨code, msg, data⟩
  rcases rid with _ | rv
  case none =>
    cases data <;>
      simp [TransportResponse.errorMessage, dumpErrorResponse, dumpError, dumpFields,
        Json.lookupField, dumpRequestId, Json.isNull, List.filter]
  case some =>
    cases rv <;> cases data <;>
      simp [TransportResponse.errorMessage, dumpErrorResponse, dumpError, dumpFields,
        Json.lookupField, dumpRequestId, Json.isNull, List.filter]

theorem generateErrorResponse_a2a (rid : Option RequestId) (k : A2AErrorKind) :
    generateErrorResponse rid (.a2a k) =
      ⟨.json (dumpErrorResponse true rid k.toError) 200,
        some (if k.isInternalError then LogLevel.error else LogLevel.warning)⟩ := rfl

/-- Claim C9: the event generator of the response renderer is the
homomorphic map of per-item serialization over the handler's stream: a
streaming outcome with items `[a, b, c, ...]` is rendered as exactly the
frames `[serialize a, serialize b, serialize c, ...]`, in the same order,
with no dropped items and no extra frames. -/
theorem c9_streaming_frames_are_mapped_serialization (items : List StreamItem) :
    createResponse (HandlerResult.stream items) =
      TransportResponse.sse (items.map serializeStreamItem) := by
  simp only [createResponse]
  congr 1
  induction items with
  | nil => rfl
  | cons a rest ih => simp [eventGenerator, ih]

/-- Claim C7: a request body that is not well-formed JSON (a structural
parse failure raised by `request.json()`) yields a normal `JSONResponse`
(status 200) whose JSON-RPC error code is -32700 (ParseError) and whose
request id is null — the handler passes `None` explicitly, so the
serialized body carries no id value. -/
theorem c7_parse_error_response (s : Scenario) (msg : String)
    (h : s.bodyRead = Except.error (PyExc.jsonDecodeError msg)) :
    handleRequests s = Except.ok (generateErrorResponse none
      (ErrorArg.a2a (A2AErrorKind.jsonParseError msg))) ∧
    ∃ hr, handleRequests s = Except.ok hr ∧
      hr.response.errorCode = some (-32700) ∧
      hr.response.status = some 200 ∧
      hr.response.idValue = none := by
  have h1 : tryHandle s = Except.error (PyExc.jsonDecodeError msg, none) := by
    unfold tryHandle
    rw [h]
  have h2 : handleRequests s = Except.ok (generateErrorResponse none
      (ErrorArg.a2a (A2AErrorKind.jsonParseError msg))) := by
    unfold handleRequests
    rw [h1]
  refine ⟨h2, _, h2, ?_, ?_, ?_⟩
  · rw [generateErrorResponse_a2a]
    exact errorCode_of_error_dump none _
  · rw [generateErrorResponse_a2a]
    rfl
  · rw [generateErrorResponse_a2a]
    exact lookupField_id_of_error_dump_none _

/-- Witness for C7 at the malformed-body scenario. -/
theorem c7_parse_error_response_witness :
    handleRequests malformedBodyScenario = Except.ok (generateErrorResponse none
      (ErrorArg.a2a (A2AErrorKind.jsonParseError "Expecting value: line 1 column 2 (char 1)"))) :=
  (c7_parse_error_response malformedBodyScenario "Expecting value: line 1 column 2 (char 1)"
    rfl).1

/-- Claim C8: whenever the try-block fails with the transport's
body-too-large signal (`HTTPException` with status 413), the pipeline
returns a JSON-RPC InvalidRequestError response with code -32600,
message "Payload too large" and the request id recovered at the raise
point (null when the signal fires during body reading), as a normal
status-200 `JSONResponse` — never a propagated transport fault. -/
theorem c8_oversized_body_response (s : Scenario) (rid : Option RequestId)
    (h : tryHandle s = Except.error (PyExc.httpException 413, rid)) :
    handleRequests s = Except.ok (generateErrorResponse rid
      (ErrorArg.a2a (A2AErrorKind.invalidRequestError "Payload too large" none))) ∧
    ∃ hr, handleRequests s = Except.ok hr ∧
      hr.response.errorCode = some (-32600) ∧
      hr.response.errorMessage = some "Payload too large" ∧
      hr.response.status = some 200 := by
  have h2 : handleRequests s = Except.ok (generateErrorResponse rid
      (ErrorArg.a2a (A2AErrorKind.invalidRequestError "Payload too large" none))) := by
    unfold handleRequests
    rw [h]
    rfl
  refine ⟨h2, _, h2, ?_, ?_, ?_⟩
  · rw [generateErrorResponse_a2a]
    exact errorCode_of_error_dump rid _
  · rw [generateErrorResponse_a2a]
    exact errorMessage_of_error_dump rid _
  · rw [generateErrorResponse_a2a]
    rfl

/-- Witness for C8 at the oversized-body scenario. -/
theorem c8_oversized_body_response_witness :
    handleRequests oversizedBodyScenario = Except.ok (generateErrorResponse none
      (ErrorArg.a2a (A2AErrorKind.invalidRequestError "Payload too large" none))) :=
  (c8_oversized_body_response oversizedBodyScenario none rfl).1

theorem processStreamingRequest_ok_shape (s : Scenario) (req : A2ARequestModel)
    (r : TransportResponse) (h : processStreamingRequest s req = Except.ok r) :
    ∃ hres, r = createResponse hres := by
  unfold processStreamingRequest at h
  cases hb : s.handler req with
  | throws e => rw [hb] at h; exact Except.noConfusion h
  | returns r' =>
    rw [hb] at h
    injection h with h
    exact ⟨r', h.symm⟩

theorem processNonStreamingRequest_ok_shape (s : Scenario) (rid : Option RequestId)
    (req : A2ARequestModel) (r : TransportResponse)
    (h : processNonStreamingRequest s rid req = Except.ok r) :
    ∃ hres, r = createResponse hres := by
  unfold processNonStreamingRequest at h
  by_cases hs : streamingClass req.variant = true
  · rw [if_pos hs] at h
    injection h with h
    exact ⟨_, h.symm⟩
  · rw [if_neg hs] at h
    cases hb : s.handler req with
    | throws e => rw [hb] at h; exact Except.noConfusion h
    | returns r' =>
      rw [hb] at h
      injection h with h
      exact ⟨r', h.symm⟩

theorem dispatchRequest_ok_shape (s : Scenario) (req : A2ARequestModel)
    (r : TransportResponse) (h : dispatchRequest s req = Except.ok r) :
    ∃ hres, r = createResponse hres := by
  unfold dispatchRequest at h
  by_cases hs : streamingClass req.variant = true
  · rw [if_pos hs] at h
    exact processStreamingRequest_ok_shape s req r h
  · rw [if_neg hs] at h
    exact processNonStreamingRequest_ok_shape s req.id req r h

theorem tryHandle_ok_shape (s : Scenario) (r : TransportResponse)
    (h : tryHandle s = Except.ok r) : ∃ hres, r = createResponse hres := by
  unfold tryHandle at h
  cases hb : s.bodyRead with
  | error e => simp only [hb] at h; exact Except.noConfusion h
  | ok body =>
    simp only [hb] at h
    cases hv : modelValidate body with
    | error d => simp only [hv] at h; exact Except.noConfusion h
    | ok req =>
      simp only [hv] at h
      cases hc : s.contextBuild with
      | error e => simp only [hc] at h; exact Except.noConfusion h
      | ok u =>
        simp only [hc] at h
        cases hd : dispatchRequest s req with
        | error e => simp only [hd] at h; exact Except.noConfusion h
        | ok r' =>
          simp only [hd] at h
          injection h with h
          subst h
          exact dispatchRequest_ok_shape s req r' hd

theorem generateErrorResponse_shape (rid : Option RequestId) (k : A2AErrorKind) :
    ∃ b lvl, generateErrorResponse rid (.a2a k) =
        ⟨TransportResponse.json b 200, some lvl⟩ ∧
      (Json.lookupField b "error").isSome = true := by
  refine ⟨dumpErrorResponse true rid k.toError, _, generateErrorResponse_a2a rid k, ?_⟩
  rw [lookupField_error_of_dump]
  rfl

/-- Claim C1: the except-ladder of the pipeline entry point never lets a
raised exception escape: for every inbound scenario the pipeline either
returns a response, or re-raises exactly an `HTTPException` whose status
is not 413 (the sole transport-owned carve-out); and every failure of the
try-block other than that carve-out is converted into a status-200
JSON-RPC error response produced by the error translator. -/
theorem c1_no_exception_escapes (s : Scenario) :
    ((∃ hr, handleRequests s = Except.ok hr) ∨
      (∃ st, st ≠ 413 ∧ handleRequests s = Except.error (PyExc.httpException st)))
    ∧ (∀ e rid, tryHandle s = Except.error (e, rid) →
        (∀ st, e = PyExc.httpException st → st = 413) →
        ∃ rid2 k b lvl,
          handleRequests s = Except.ok (generateErrorResponse rid2 (ErrorArg.a2a k)) ∧
          generateErrorResponse rid2 (ErrorArg.a2a k) =
            ⟨TransportResponse.json b 200, some lvl⟩ ∧
          (Json.lookupField b "error").isSome = true) := by
  constructor
  · cases ht : tryHandle s with
    | ok r => exact Or.inl ⟨⟨r, none⟩, by unfold handleRequests; rw [ht]⟩
    | error p =>
      rcases p with ⟨e, rid⟩
      cases e with
      | methodNotImplementedError =>
        exact Or.inl ⟨_, by unfold handleRequests; rw [ht]⟩
      | jsonDecodeError msg =>
        exact Or.inl ⟨_, by unfold handleRequests; rw [ht]⟩
      | validationError d =>
        exact Or.inl ⟨_, by unfold handleRequests; rw [ht]⟩
      | httpException st =>
        by_cases h413 : st = 413
        · subst h413
          exact Or.inl ⟨_, by unfold handleRequests; rw [ht]; rfl⟩
        · refine Or.inr ⟨st, h413, ?_⟩
          unfold handleRequests
          rw [ht]
          simp [h413]
      | otherException msg =>
        exact Or.inl ⟨_, by unfold handleRequests; rw [ht]⟩
  · intro e rid ht hcarve
    cases e with
    | methodNotImplementedError =>
      obtain ⟨b, lvl, hshape, herr⟩ := generateErrorResponse_shape rid
        (.unsupportedOperationError "This operation is not supported")
      exact ⟨rid, _, b, lvl, by unfold handleRequests; rw [ht], hshape, herr⟩
    | jsonDecodeError msg =>
      obtain ⟨b, lvl, hshape, herr⟩ := generateErrorResponse_shape none
        (.jsonParseError msg)
      exact ⟨none, _, b, lvl, by unfold handleRequests; rw [ht], hshape, herr⟩
    | validationError d =>
      obtain ⟨b, lvl, hshape, herr⟩ := generateErrorResponse_shape rid
        (.invalidRequestError "Request payload validation error" (some d))
      exact ⟨rid, _, b, lvl, by unfold handleRequests; rw [ht], hshape, herr⟩
    | httpException st =>
      have h413 : st = 413 := hcarve st rfl
      subst h413
      obtain ⟨b, lvl, hshape, herr⟩ := generateErrorResponse_shape rid
        (.invalidRequestError "Payload too large" none)
      exact ⟨rid, _, b, lvl, by unfold handleRequests; rw [ht]; rfl, hshape, herr⟩
    | otherException msg =>
      obtain ⟨b, lvl, hshape, herr⟩ := generateErrorResponse_shape rid
        (.internalError msg)
      exact ⟨rid, _, b, lvl, by unfold handleRequests; rw [ht], hshape, herr⟩

/-- Witness for C1 at the malformed-body scenario: the raised
`JSONDecodeError` is converted, not propagated. -/
theorem c1_no_exception_escapes_witness :
    ∃ rid2 k b lvl,
      handleRequests malformedBodyScenario =
        Except.ok (generateErrorResponse rid2 (ErrorArg.a2a k)) ∧
      generateErrorResponse rid2 (ErrorArg.a2a k) =
        ⟨TransportResponse.json b 200, some lvl⟩ ∧
      (Json.lookupField b "error").isSome = true :=
  (c1_no_exception_escapes malformedBodyScenario).2
    (PyExc.jsonDecodeError "Expecting value: line 1 column 2 (char 1)") none rfl
    (fun _ h => PyExc.noConfusion h)

/-- The spec's words for id recovery (refinement side of C3): "the
decoder must still best-effort extract the request id if the top-level
shape permits" — a top-level string or integer id of an object body. -/
def specRecoverableId (body : Json) : Option RequestId :=
  match body with
  | .obj fields =>
    match Json.lookupField fields "id" with
    | some (Json.str s) => some (.str s)
    | some (Json.num n) => some (.num n)
    | _ => none
  | _ => none

theorem handleRequests_validation_failure (s : Scenario) (body detail : Json)
    (hb : s.bodyRead = Except.ok body) (hv : modelValidate body = Except.error detail) :
    handleRequests s = Except.ok (generateErrorResponse none
      (ErrorArg.a2a (A2AErrorKind.invalidRequestError "Request payload validation error"
        (some detail)))) := by
  have h1 : tryHandle s = Except.error (PyExc.validationError detail, none) := by
    unfold tryHandle
    simp only [hb, hv]
  unfold handleRequests
  rw [h1]

/-- Claim C3 counterexample: the body
`{"jsonrpc": "2.0", "id": 5, "method": "foo/bar", "params": {}}` fails
schema validation while its top-level id 5 is syntactically recoverable,
yet the InvalidRequestError response does not echo it: the response
carries no id at all (the `request_id` local is still `None` when the
`ValidationError` handler runs, because the id is read from the decoded
request only after validation succeeds). -/
theorem c3_counterexample :
    specRecoverableId unknownMethodBody = some (RequestId.num 5) ∧
    (∃ detail, modelValidate unknownMethodBody = Except.error detail) ∧
    ∃ hr, handleRequests unknownMethodScenario = Except.ok hr ∧
      hr.response.idValue = none ∧
      hr.response.idValue ≠ some (Json.num 5) := by
  refine ⟨rfl, ⟨Json.str ("Unable to extract tag using discriminator: " ++ "foo/bar"), rfl⟩,
    generateErrorResponse none (ErrorArg.a2a (A2AErrorKind.invalidRequestError
      "Request payload validation error" (some (Json.str
      ("Unable to extract tag using discriminator: " ++ "foo/bar"))))), rfl, ?_, ?_⟩
  · exact lookupField_id_of_error_dump_none _
  · intro hcontra
    have h1 : (generateErrorResponse none (ErrorArg.a2a (A2AErrorKind.invalidRequestError
        "Request payload validation error" (some (Json.str
        ("Unable to extract tag using discriminator: " ++ "foo/bar")))))).response.idValue =
        none := lookupField_id_of_error_dump_none _
    rw [h1] at hcontra
    exact Option.noConfusion hcontra

/-- Claim C3 (amended): on schema validation failure the response id is
always null — the serialized error body carries no id — regardless of
whether a top-level id was syntactically recoverable; the response is the
InvalidRequestError (-32600) built with `request_id = None`. -/
theorem c3_validation_failure_id_null (s : Scenario) (body detail : Json)
    (hb : s.bodyRead = Except.ok body) (hv : modelValidate body = Except.error detail) :
    handleRequests s = Except.ok (generateErrorResponse none
      (ErrorArg.a2a (A2AErrorKind.invalidRequestError "Request payload validation error"
        (some detail)))) ∧
    ∃ hr, handleRequests s = Except.ok hr ∧
      hr.response.idValue = none ∧
      hr.response.errorCode = some (-32600) := by
  have h2 := handleRequests_validation_failure s body detail hb hv
  refine ⟨h2, _, h2, ?_, ?_⟩
  · rw [generateErrorResponse_a2a]
    exact lookupField_id_of_error_dump_none _
  · rw [generateErrorResponse_a2a]
    exact errorCode_of_error_dump none _

/-- Witness for the amended C3 at the unknown-method scenario. -/
theorem c3_validation_failure_id_null_witness :
    handleRequests unknownMethodScenario = Except.ok (generateErrorResponse none
      (ErrorArg.a2a (A2AErrorKind.invalidRequestError "Request payload validation error"
        (some (Json.str "Unable to extract tag using discriminator: foo/bar"))))) :=
  (c3_validation_failure_id_null unknownMethodScenario unknownMethodBody
    (Json.str "Unable to extract tag using discriminator: foo/bar") rfl rfl).1

/-- Claim C2 counterexample: a well-formed body whose method
discriminator is unknown produces an InvalidRequestError-shaped response
(code -32600), not an UnsupportedOperationError-shaped one (code -32004):
the unknown discriminator is rejected by envelope validation before
dispatch, so the `UnsupportedOperationError` paths are never reached. -/
theorem c2_counterexample :
    (∃ fields m, unknownMethodBody = Json.obj fields ∧
      Json.lookupField fields "method" = some (Json.str m) ∧
      methodToVariant m = none) ∧
    ∃ hr, handleRequests unknownMethodScenario = Except.ok hr ∧
      hr.response.errorCode = some (-32600) ∧
      hr.response.errorCode ≠ some (-32004) := by
  refine ⟨⟨_, "foo/bar", rfl, rfl, rfl⟩,
    generateErrorResponse none (ErrorArg.a2a (A2AErrorKind.invalidRequestError
      "Request payload validation error" (some (Json.str
      ("Unable to extract tag using discriminator: " ++ "foo/bar"))))), rfl, ?_, ?_⟩
  · exact errorCode_of_error_dump none _
  · intro hcontra
    have h1 : (generateErrorResponse none (ErrorArg.a2a (A2AErrorKind.invalidRequestError
        "Request payload validation error" (some (Json.str
        ("Unable to extract tag using discriminator: " ++ "foo/bar")))))).response.errorCode =
        some (-32600) := errorCode_of_error_dump none _
    rw [h1] at hcontra
    exact absurd hcontra (by decide)

/-- Claim C2 (amended): for every well-formed JSON request body whose
method discriminator is not one of the nine known variants, the pipeline
returns an InvalidRequestError-shaped (-32600) JSON-RPC error response as
a normal status-200 JSON body — never an unhandled crash (the
UnsupportedOperationError shape arises only from
`MethodNotImplementedError` or the defensive fallback, not from an
unknown discriminator). -/
theorem c2_unknown_method_invalid_request (s : Scenario)
    (fields : List (String × Json)) (m : String)
    (hb : s.bodyRead = Except.ok (Json.obj fields))
    (hm : Json.lookupField fields "method" = some (Json.str m))
    (hu : methodToVariant m = none) :
    handleRequests s = Except.ok (generateErrorResponse none
      (ErrorArg.a2a (A2AErrorKind.invalidRequestError "Request payload validation error"
        (some (Json.str ("Unable to extract tag using discriminator: " ++ m)))))) ∧
    ∃ hr, handleRequests s = Except.ok hr ∧
      hr.response.errorCode = some (-32600) ∧
      hr.response.status = some 200 := by
  have hv : modelValidate (Json.obj fields) = Except.error
      (Json.str ("Unable to extract tag using discriminator: " ++ m)) := by
    unfold modelValidate
    simp only [hm, hu]
  have h2 := handleRequests_validation_failure s (Json.obj fields) _ hb hv
  refine ⟨h2, _, h2, ?_, ?_⟩
  · rw [generateErrorResponse_a2a]
    exact errorCode_of_error_dump none _
  · rw [generateErrorResponse_a2a]
    rfl

/-- Witness for the amended C2 at the unknown-method scenario. -/
theorem c2_unknown_method_invalid_request_witness :
    handleRequests unknownMethodScenario = Except.ok (generateErrorResponse none
      (ErrorArg.a2a (A2AErrorKind.invalidRequestError "Request payload validation error"
        (some (Json.str ("Unable to extract tag using discriminator: " ++ "foo/bar")))))) :=
  (c2_unknown_method_invalid_request unknownMethodScenario
    [("jsonrpc", Json.str "2.0"), ("id", Json.num 5),
     ("method", Json.str "foo/bar"), ("params", Json.obj [])]
    "foo/bar" rfl rfl rfl).1

theorem handleRequests_dispatch_ok (s : Scenario) (body : Json) (req : A2ARequestModel)
    (r : TransportResponse)
    (hb : s.bodyRead = Except.ok body) (hv : modelValidate body = Except.ok req)
    (hc : s.contextBuild = Except.ok ()) (hd : dispatchRequest s req = Except.ok r) :
    handleRequests s = Except.ok ⟨r, none⟩ := by
  have h1 : tryHandle s = Except.ok r := by
    unfold tryHandle
    simp only [hb, hv, hc, hd]
  unfold handleRequests
  rw [h1]

/-- Claim C4: for a decoded unary request, a handler outcome that is an
explicit `JSONRPCErrorResponse` and one that is a success root model both
reach the transport as status-200 `JSONResponse`s; the two bodies differ
only in carrying an `error` field versus a `result` field. -/
theorem c4_unary_error_and_success_same_status (s : Scenario) (body : Json)
    (req : A2ARequestModel) (i : Option RequestId) (e : JSONRPCError) (r : Json)
    (hb : s.bodyRead = Except.ok body) (hv : modelValidate body = Except.ok req)
    (hc : s.contextBuild = Except.ok ())
    (hstream : streamingClass req.variant = false) :
    (s.handler req = HandlerBehavior.returns (HandlerResult.errorResponse i e) →
      handleRequests s =
        Except.ok ⟨TransportResponse.json (dumpErrorResponse true i e) 200, none⟩ ∧
      (Json.lookupField (dumpErrorResponse true i e) "error").isSome = true ∧
      Json.lookupField (dumpErrorResponse true i e) "result" = none) ∧
    (s.handler req = HandlerBehavior.returns (HandlerResult.success i r) →
      handleRequests s =
        Except.ok ⟨TransportResponse.json (dumpSuccessResponse true i r) 200, none⟩ ∧
      Json.lookupField (dumpSuccessResponse true i r) "error" = none) := by
  have hneg : ¬(streamingClass req.variant = true) := by
    simp [hstream]
  constructor
  · intro hh
    have hd : dispatchRequest s req =
        Except.ok (createResponse (HandlerResult.errorResponse i e)) := by
      unfold dispatchRequest
      rw [if_neg hneg]
      unfold processNonStreamingRequest
      rw [if_neg hneg, hh]
    refine ⟨handleRequests_dispatch_ok s body req _ hb hv hc hd, ?_, ?_⟩
    · rw [lookupField_error_of_dump]
      rfl
    · exact lookupField_result_of_error_dump i e
  · intro hh
    have hd : dispatchRequest s req =
        Except.ok (createResponse (HandlerResult.success i r)) := by
      unfold dispatchRequest
      rw [if_neg hneg]
      unfold processNonStreamingRequest
      rw [if_neg hneg, hh]
    exact ⟨handleRequests_dispatch_ok s body req _ hb hv hc hd,
      lookupField_error_of_success_dump i r⟩

/-- Witness for C4 at the unary explicit-error scenario. -/
theorem c4_unary_error_and_success_same_status_witness :
    handleRequests unaryErrorScenario = Except.ok ⟨TransportResponse.json
      (dumpErrorResponse true (some (RequestId.num 1))
        ⟨-32001, "Task not found", none⟩) 200, none⟩ ∧
    (Json.lookupField (dumpErrorResponse true (some (RequestId.num 1))
      ⟨-32001, "Task not found", none⟩) "error").isSome = true ∧
    Json.lookupField (dumpErrorResponse true (some (RequestId.num 1))
      ⟨-32001, "Task not found", none⟩) "result" = none :=
  (c4_unary_error_and_success_same_status unaryErrorScenario getTaskBody
    ⟨some (RequestId.num 1), A2ARequestVariant.getTask, Json.obj [("id", Json.str "t1")]⟩
    (some (RequestId.num 1)) ⟨-32001, "Task not found", none⟩ Json.null
    rfl rfl rfl rfl).1 rfl

/-- Handler outcomes conforming to the declared signatures of the
`JSONRPCHandler` collaborator: the two streaming methods return an async
generator, the seven unary methods return a response root model, and the
invocation itself does not raise. -/
def conformingOutcome (v : A2ARequestVariant) : HandlerBehavior → Prop
  | .returns (.stream _) => streamingClass v = true
  | .returns (.errorResponse _ _) => streamingClass v = false
  | .returns (.success _ _) => streamingClass v = false
  | .throws _ => False

/-- Claim C5: for every successfully decoded request whose handler
conforms to its declared signature, the response is a server-sent-event
stream exactly when the decoded variant is in the streaming class
(SendStreamingMessageRequest or TaskResubscriptionRequest); each of the
other seven variants produces one status-200 `application/json` body —
the mode is selected purely by the decoded variant. -/
theorem c5_streaming_iff_sse (s : Scenario) (body : Json) (req : A2ARequestModel)
    (hb : s.bodyRead = Except.ok body) (hv : modelValidate body = Except.ok req)
    (hc : s.contextBuild = Except.ok ())
    (hconf : conformingOutcome req.variant (s.handler req)) :
    ∃ hr, handleRequests s = Except.ok hr ∧
      (hr.response.isSSE = true ↔ streamingClass req.variant = true) ∧
      (streamingClass req.variant = false →
        ∃ b, hr.response = TransportResponse.json b 200) := by
  cases hh : s.handler req with
  | throws e =>
    rw [hh] at hconf
    exact hconf.elim
  | returns res =>
    rw [hh] at hconf
    cases res with
    | stream items =>
      have hs : streamingClass req.variant = true := hconf
      have hd : dispatchRequest s req =
          Except.ok (createResponse (HandlerResult.stream items)) := by
        unfold dispatchRequest
        rw [if_pos hs]
        unfold processStreamingRequest
        rw [hh]
      refine ⟨⟨createResponse (HandlerResult.stream items), none⟩,
        handleRequests_dispatch_ok s body req _ hb hv hc hd, ⟨fun _ => hs, fun _ => rfl⟩, ?_⟩
      intro hfalse
      rw [hs] at hfalse
      exact absurd hfalse (by simp)
    | errorResponse i e =>
      have hs : streamingClass req.variant = false := hconf
      have hneg : ¬(streamingClass req.variant = true) := by
        simp [hs]
      have hd : dispatchRequest s req =
          Except.ok (createResponse (HandlerResult.errorResponse i e)) := by
        unfold dispatchRequest
        rw [if_neg hneg]
        unfold processNonStreamingRequest
        rw [if_neg hneg, hh]
      refine ⟨⟨createResponse (HandlerResult.errorResponse i e), none⟩,
        handleRequests_dispatch_ok s body req _ hb hv hc hd,
        ⟨fun habs => absurd habs (by simp [TransportResponse.isSSE, createResponse]),
         fun habs => absurd habs hneg⟩, fun _ => ⟨_, rfl⟩⟩
    | success i r =>
      have hs : streamingClass req.variant = false := hconf
      have hneg : ¬(streamingClass req.variant = true) := by
        simp [hs]
      have hd : dispatchRequest s req =
          Except.ok (createResponse (HandlerResult.success i r)) := by
        unfold dispatchRequest
        rw [if_neg hneg]
        unfold processNonStreamingRequest
        rw [if_neg hneg, hh]
      refine ⟨⟨createResponse (HandlerResult.success i r), none⟩,
        handleRequests_dispatch_ok s body req _ hb hv hc hd,
        ⟨fun habs => absurd habs (by simp [TransportResponse.isSSE, createResponse]),
         fun habs => absurd habs hneg⟩, fun _ => ⟨_, rfl⟩⟩

/-- Witness for C5 at the streaming scenario. -/
theorem c5_streaming_iff_sse_witness :
    ∃ hr, handleRequests streamScenario = Except.ok hr ∧
      (hr.response.isSSE = true ↔
        streamingClass A2ARequestVariant.sendStreamingMessage = true) ∧
      (streamingClass A2ARequestVariant.sendStreamingMessage = false →
        ∃ b, hr.response = TransportResponse.json b 200) :=
  c5_streaming_iff_sse streamScenario streamBody
    ⟨some (RequestId.num 2), A2ARequestVariant.sendStreamingMessage, Json.obj []⟩
    rfl rfl rfl rfl

theorem generateErrorResponse_jsonrpc (rid : Option RequestId) (e : JSONRPCError) :
    generateErrorResponse rid (.jsonrpc e) =
      ⟨.json (dumpErrorResponse true rid e) 200, some LogLevel.error⟩ := rfl

/-- Claim C6 counterexample: the malformed-body ParseError response is
logged at WARNING, not at ERROR as the claim requires for every listed
category — `_generate_error_response` picks ERROR only for a bare
`JSONRPCError` or an `A2AError` rooted in `InternalError`. -/
theorem c6_counterexample :
    ∃ hr, handleRequests malformedBodyScenario = Except.ok hr ∧
      hr.logLevel = some LogLevel.warning ∧
      hr.logLevel ≠ some LogLevel.error := by
  refine ⟨generateErrorResponse none (ErrorArg.a2a (A2AErrorKind.jsonParseError
    "Expecting value: line 1 column 2 (char 1)")), rfl, rfl, ?_⟩
  intro hcontra
  rw [generateErrorResponse_a2a] at hcontra
  simp [A2AErrorKind.isInternalError] at hcontra

/-- Claim C6 (amended): the error translator logs at ERROR exactly for a
bare `JSONRPCError` argument or an `A2AError` rooted in InternalError,
and at WARNING for the other table categories (ParseError,
InvalidRequestError — including the oversized-body remap — and
UnsupportedOperationError); within the pipeline an ERROR-severity log
occurs exactly when the catch-all `except Exception` branch fires. -/
theorem c6_log_severity (rid : Option RequestId) (arg : ErrorArg) :
    (generateErrorResponse rid arg).logLevel =
      some (match arg with
            | ErrorArg.jsonrpc _ => LogLevel.error
            | ErrorArg.a2a k =>
              if k.isInternalError then LogLevel.error else LogLevel.warning) ∧
    (∀ s hr, handleRequests s = Except.ok hr → hr.logLevel = some LogLevel.error →
      ∃ msg rid2, tryHandle s = Except.error (PyExc.otherException msg, rid2)) := by
  constructor
  · cases arg <;> rfl
  · intro s hr heq hlvl
    cases ht : tryHandle s with
    | ok r =>
      unfold handleRequests at heq
      rw [ht] at heq
      injection heq with heq
      subst heq
      exact Option.noConfusion hlvl
    | error p =>
      rcases p with ⟨e, rid2⟩
      cases e with
      | methodNotImplementedError =>
        unfold handleRequests at heq
        rw [ht] at heq
        injection heq with heq
        subst heq
        rw [generateErrorResponse_a2a] at hlvl
        simp [A2AErrorKind.isInternalError] at hlvl
      | jsonDecodeError msg =>
        unfold handleRequests at heq
        rw [ht] at heq
        injection heq with heq
        subst heq
        rw [generateErrorResponse_a2a] at hlvl
        simp [A2AErrorKind.isInternalError] at hlvl
      | validationError d =>
        unfold handleRequests at heq
        rw [ht] at heq
        injection heq with heq
        subst heq
        rw [generateErrorResponse_a2a] at hlvl
        simp [A2AErrorKind.isInternalError] at hlvl
      | httpException st =>
        unfold handleRequests at heq
        simp only [ht] at heq
        by_cases h413 : st = 413
        · subst h413
          rw [if_pos rfl] at heq
          injection heq with heq
          subst heq
          rw [generateErrorResponse_a2a] at hlvl
          simp [A2AErrorKind.isInternalError] at hlvl
        · rw [if_neg h413] at heq
          exact Except.noConfusion heq
      | otherException msg =>
        exact ⟨msg, rid2, rfl⟩

/-- Witness for the amended C6: the catch-all branch is the one that
produces an ERROR-severity log. -/
theorem c6_log_severity_witness :
    ∃ msg rid2, tryHandle internalFailureScenario =
      Except.error (PyExc.otherException msg, rid2) :=
  (c6_log_severity none (ErrorArg.a2a (A2AErrorKind.internalError "boom"))).2
    internalFailureScenario
    (generateErrorResponse (some (RequestId.num 1))
      (ErrorArg.a2a (A2AErrorKind.internalError "boom")))
    rfl rfl

theorem generateErrorResponse_body_nullfree (rid : Option RequestId) (arg : ErrorArg)
    (b : List (String × Json)) (st : Nat)
    (hresp : (generateErrorResponse rid arg).response = TransportResponse.json b st) :
    ∀ p ∈ b, p.2.isNull = false := by
  cases arg with
  | jsonrpc e =>
    simp only [generateErrorResponse_jsonrpc] at hresp
    injection hresp with hb hst
    subst hb
    exact fun p hp => mem_dumpFields_true hp
  | a2a k =>
    simp only [generateErrorResponse_a2a] at hresp
    injection hresp with hb hst
    subst hb
    exact fun p hp => mem_dumpFields_true hp

theorem createResponse_json_nullfree (hres : HandlerResult)
    (b : List (String × Json)) (st : Nat)
    (hresp : createResponse hres = TransportResponse.json b st) :
    ∀ p ∈ b, p.2.isNull = false := by
  cases hres with
  | stream items => exact TransportResponse.noConfusion hresp
  | errorResponse i e =>
    injection hresp with hb hst
    subst hb
    exact fun p hp => mem_dumpFields_true hp
  | success i r =>
    injection hresp with hb hst
    subst hb
    exact fun p hp => mem_dumpFields_true hp

/-- Claim C10: every body the pipeline emits is serialized with
`exclude_none=True`: no top-level field of an emitted `JSONResponse` body
is null; the nested error object of an error dump has no null field; no
top-level field of a stream-frame object is null; and an error response
built with an unrecoverable request id (`None`) contains no id key at
all, rather than an explicit null. -/
theorem c10_exclude_none_everywhere :
    (∀ s hr b st, handleRequests s = Except.ok hr →
      hr.response = TransportResponse.json b st →
      ∀ p ∈ b, p.2.isNull = false) ∧
    (∀ e, ∃ ef, dumpError true e = Json.obj ef ∧ ∀ p ∈ ef, p.2.isNull = false) ∧
    (∀ item p, p ∈ dumpStreamItem true item → p.2.isNull = false) ∧
    (∀ rid arg b st, (generateErrorResponse rid arg).response =
        TransportResponse.json b st → rid = none →
      Json.lookupField b "id" = none) := by
  refine ⟨?_, ?_, ?_, ?_⟩
  · intro s hr b st heq hresp
    cases ht : tryHandle s with
    | ok r =>
      unfold handleRequests at heq
      rw [ht] at heq
      injection heq with heq
      subst heq
      obtain ⟨hres, hshape⟩ := tryHandle_ok_shape s r ht
      subst hshape
      exact createResponse_json_nullfree hres b st hresp
    | error p =>
      rcases p with ⟨e, rid2⟩
      cases e with
      | methodNotImplementedError =>
        unfold handleRequests at heq
        rw [ht] at heq
        injection heq with heq
        subst heq
        exact generateErrorResponse_body_nullfree rid2 _ b st hresp
      | jsonDecodeError msg =>
        unfold handleRequests at heq
        rw [ht] at heq
        injection heq with heq
        subst heq
        exact generateErrorResponse_body_nullfree none _ b st hresp
      | validationError d =>
        unfold handleRequests at heq
        rw [ht] at heq
        injection heq with heq
        subst heq
        exact generateErrorResponse_body_nullfree rid2 _ b st hresp
      | httpException stx =>
        unfold handleRequests at heq
        simp only [ht] at heq
        by_cases h413 : stx = 413
        · subst h413
          rw [if_pos rfl] at heq
          injection heq with heq
          subst heq
          exact generateErrorResponse_body_nullfree rid2 _ b st hresp
        · rw [if_neg h413] at heq
          exact Except.noConfusion heq
      | otherException msg =>
        unfold handleRequests at heq
        rw [ht] at heq
        injection heq with heq
        subst heq
        exact generateErrorResponse_body_nullfree rid2 _ b st hresp
  · intro e
    exact ⟨_, rfl, fun p hp => mem_dumpFields_true hp⟩
  · intro item p hp
    cases item with
    | success i r => exact mem_dumpFields_true hp
    | error i e => exact mem_dumpFields_true hp
  · intro rid arg b st hresp hnone
    subst hnone
    cases arg with
    | jsonrpc e =>
      simp only [generateErrorResponse_jsonrpc] at hresp
      injection hresp with hb hst
      subst hb
      exact lookupField_id_of_error_dump_none e
    | a2a k =>
      simp only [generateErrorResponse_a2a] at hresp
      injection hresp with hb hst
      subst hb
      exact lookupField_id_of_error_dump_none k.toError

/-- Witness for C10: the id field survives the dump in a success body
(it is not null), checked at the unary scenario. -/
theorem c10_exclude_none_everywhere_witness :
    (("id", Json.num 1) : String × Json).2.isNull = false :=
  c10_exclude_none_everywhere.1 unaryScenario
    ⟨TransportResponse.json [("jsonrpc", Json.str "2.0"), ("id", Json.num 1),
      ("result", Json.obj [("kind", Json.str "task")])] 200, none⟩
    [("jsonrpc", Json.str "2.0"), ("id", Json.num 1),
      ("result", Json.obj [("kind", Json.str "task")])] 200 rfl rfl
    ("id", Json.num 1) (List.Mem.tail _ (List.Mem.head _))
